import Mathlib

/-!
# PhishGuard frontend — verification of spec claims

Shallow embedding of the two React frontends of the PhishGuard repository:

* `src/frontend/src/App.jsx` — trims and validates the input, POSTs
  `{"url": trimmed}`, checks `resp.ok`, renders a verdict from
  `result.label === 1` together with a score and reason tags.
* `src/frontend/src/App.js` — POSTs the raw (untrimmed) input with no
  validation, never checks the HTTP status, stores `data.prediction`, and
  renders a phishing/legitimate verdict from `result === "phishing"`.

JSON values are modelled by the inductive `Json` (numbers as rationals:
every number appearing in a parsed JSON body is finite).  Each frontend's
`handleSubmit`, together with the asynchronous continuations of its
`fetch` call, is modelled as a step function on a system state consisting
of the React component state plus a log of dispatched HTTP requests; an
execution is a fold of that step function over a list of events
(submissions and transport resolutions), mirroring the single-threaded
run-to-completion event loop of the browser.
-/

namespace PhishGuard

/-- JSON values as produced by `response.json()`.  Numbers are rationals:
JSON syntax denotes only finite decimal numbers. -/
inductive Json where
  | null : Json
  | bool : Bool → Json
  | num : ℚ → Json
  | str : String → Json
  | arr : List Json → Json
  | obj : List (String × Json) → Json

/-- Property lookup on a list of object fields.  As in JavaScript object
literals and `JSON.parse`, a later duplicate key shadows an earlier one. -/
def lookupField (fields : List (String × Json)) (key : String) : Option Json :=
  fields.foldl (fun acc kv => if kv.1 = key then some kv.2 else acc) none

/-- JavaScript property access `v.key`: `some` the field value on objects
that carry the key, `none` (i.e. `undefined`) otherwise. -/
def Json.get : Json → String → Option Json
  | .obj fields, key => lookupField fields key
  | _, _ => none

/-- JavaScript truthiness of a JSON value: `null`, `false`, `0` and `""`
are falsy; every array and object (even empty) is truthy. -/
def jsonTruthy : Json → Bool
  | .null => false
  | .bool b => b
  | .num q => !(q == 0)
  | .str s => !(s == "")
  | .arr _ => true
  | .obj _ => true

/-- `resp.ok`: the HTTP status lies in the 2xx success range
(the Fetch standard defines `ok` as status in [200, 299]). -/
def statusOk (status : Nat) : Bool := 200 ≤ status && status < 300

/-- The characters `String.prototype.trim` removes (ECMAScript
WhiteSpace and LineTerminator; the ASCII ones, which cover the inputs
considered here). -/
def jsWhitespace (c : Char) : Bool :=
  c == ' ' || c == '\t' || c == '\n' || c == '\r' ||
  c == Char.ofNat 11 || c == Char.ofNat 12

/-- Model of JavaScript's `String.prototype.trim`: strip leading and
trailing whitespace. -/
def jsTrim (s : String) : String :=
  String.mk (((s.data.dropWhile jsWhitespace).reverse.dropWhile jsWhitespace).reverse)

/-- The outcome of one `fetch` call, as observed by the awaiting code:
the promise rejects (`netFail`, no response received), or a response with
some status arrives whose body either is not valid JSON (`badJson`) or
parses to a JSON value (`okBody`).  `text` is the raw body text, `msg`
and `parseMsg` the JavaScript error messages of the rejections. -/
inductive Outcome where
  | netFail (msg : String) : Outcome
  | badJson (status : Nat) (text : String) (parseMsg : String) : Outcome
  | okBody (status : Nat) (text : String) (data : Json) : Outcome

/-- An HTTP request dispatched by `fetch`, with the literal method,
endpoint and content type from the source and the JSON request body. -/
structure Request where
  method : String
  endpoint : String
  contentType : String
  body : Json

/-- Events driving a frontend: the user submits the form with the current
input-field value, or the `i`-th dispatched request's `fetch` promise
settles with an outcome and the awaiting continuation runs. -/
inductive Event where
  | submit (input : String) : Event
  | resolve (i : Nat) (o : Outcome) : Event

/-! ## App.jsx -/

/-- React state of the `App.jsx` component: the `error`, `result` and
`loading` `useState` hooks (the `url` field value is supplied by each
submit event). -/
structure JsxState where
  error : Option String
  result : Option Json
  loading : Bool

/-- Initial `App.jsx` state: `error = null`, `result = null`,
`loading = false`. -/
def jsxInit : JsxState := ⟨none, none, false⟩

/-- `App.jsx` system state: component state plus the log of dispatched
requests in dispatch order. -/
structure JsxSys where
  ui : JsxState
  requests : List Request

/-- The request `App.jsx` dispatches for a trimmed URL:
`fetch(apiUrl, { method: "POST", headers: { "Content-Type":
"application/json" }, body: JSON.stringify({ url: trimmed }) })`. -/
def jsxRequest (trimmed : String) : Request :=
  ⟨"POST", "http://127.0.0.1:5000/predict_url", "application/json",
    Json.obj [("url", Json.str trimmed)]⟩

/-- The continuation of `App.jsx`'s `handleSubmit` after `fetch` settles:
`!resp.ok` throws `"Server error: " + (text || resp.status)` which the
`catch` stores in `error`; a JSON-parse rejection or a network rejection
lands in the same `catch` (`err.message || "Network error"`); a parsed
2xx body is stored in `result`.  The `finally` clears `loading` in every
branch.  No branch consults which submission the response belongs to. -/
def jsxResolve (s : JsxState) (o : Outcome) : JsxState :=
  match o with
  | .netFail msg =>
      { s with error := some (if msg = "" then "Network error" else msg),
               loading := false }
  | .badJson status text parseMsg =>
      if statusOk status then
        { s with error := some (if parseMsg = "" then "Network error" else parseMsg),
                 loading := false }
      else
        { s with error := some ("Server error: " ++ (if text = "" then toString status else text)),
                 loading := false }
  | .okBody status text data =>
      if statusOk status then
        { s with result := some data, loading := false }
      else
        { s with error := some ("Server error: " ++ (if text = "" then toString status else text)),
                 loading := false }

/-- One event step of `App.jsx`.  `handleSubmit` clears `error` and
`result`, trims the input, reports `"Please enter a URL to scan."`
without fetching when the trimmed input is empty, and otherwise sets
`loading` and dispatches exactly one request; a resolution applies
`jsxResolve` to the current state unconditionally (the source has no
staleness check). -/
def jsxStep (sys : JsxSys) : Event → JsxSys
  | .submit input =>
      let ui1 : JsxState := { sys.ui with error := none, result := none }
      let trimmed := jsTrim input
      if trimmed = "" then
        { sys with ui := { ui1 with error := some "Please enter a URL to scan." } }
      else
        { ui := { ui1 with loading := true },
          requests := sys.requests ++ [jsxRequest trimmed] }
  | .resolve _ o => { sys with ui := jsxResolve sys.ui o }

/-- Run `App.jsx` from a system state over a list of events. -/
def jsxRun (sys : JsxSys) (events : List Event) : JsxSys :=
  events.foldl jsxStep sys

/-- `result.label === 1`: true exactly when the payload's `label` field
is the number `1`. -/
def isLabelOne (r : Json) : Bool :=
  match r.get "label" with
  | some (Json.num q) => q == 1
  | _ => false

/-- The verdict `App.jsx` renders: the result block is shown only when
`result` is truthy, and then displays `"Phishing ⚠️"` iff
`result.label === 1` and `"Safe ✅"` otherwise.  `some b` means a verdict
is displayed with `isPhishing = b`; `none` means no verdict is shown. -/
def jsxRenderedVerdict : Option Json → Option Bool
  | none => none
  | some r => if jsonTruthy r then some (isLabelOne r) else none

/-- The confidence `App.jsx` displays: the score line shows the numeric
value `result.score` (formatted with `toFixed(2)`) when
`typeof result.score === "number"`, and the non-numeric placeholder
`String(result.score)` otherwise.  `some q` means the number `q` is
displayed; `none` means the placeholder. -/
def jsxScoreDisplayed (r : Json) : Option ℚ :=
  match r.get "score" with
  | some (Json.num q) => some q
  | _ => none

/-- The reason tags `App.jsx` renders: `result.reasons` is mapped to tags
exactly when `Array.isArray(result.reasons) && result.reasons.length > 0`;
otherwise no tag is rendered (the empty sequence). -/
def jsxReasonsDisplayed (r : Json) : List Json :=
  match r.get "reasons" with
  | some (Json.arr xs) => if xs.length > 0 then xs else []
  | _ => []

/-! ## App.js -/

/-- The value held by `App.js`'s `result` state after a resolution:
`pred v` is `data.prediction` (with `none` for `undefined` when the field
is absent), `errObj msg` is the `{ error: msg }` object stored by the
`catch` branch. -/
inductive JsResult where
  | pred (v : Option Json) : JsResult
  | errObj (msg : String) : JsResult

/-- JavaScript truthiness of a stored `result` value: `undefined` is
falsy, a `prediction` value has its JSON truthiness, and the `catch`
branch's error object is truthy. -/
def jsTruthy : JsResult → Bool
  | .pred none => false
  | .pred (some v) => jsonTruthy v
  | .errObj _ => true

/-- `result === "phishing"`: strict equality with the string, true only
when `result` is exactly the string `"phishing"`. -/
def jsIsPhishing : JsResult → Bool
  | .pred (some (Json.str s)) => s == "phishing"
  | _ => false

/-- React state of the `App.js` component: the `result` and `loading`
hooks (`none` is the initial/cleared `null`). -/
structure JsState where
  result : Option JsResult
  loading : Bool

/-- Initial `App.js` state. -/
def jsInit : JsState := ⟨none, false⟩

/-- `App.js` system state: component state plus dispatched requests. -/
structure JsSys where
  ui : JsState
  requests : List Request

/-- The request `App.js` dispatches: the raw field value, untrimmed
(`body: JSON.stringify({ url })`). -/
def jsRequest (input : String) : Request :=
  ⟨"POST", "http://127.0.0.1:5000/predict_url", "application/json",
    Json.obj [("url", Json.str input)]⟩

/-- The continuation of `App.js`'s `handleSubmit` after `fetch` settles.
There is no `response.ok` check: any response whose body parses as JSON
reaches `setResult(data.prediction)` regardless of status; accessing
`.prediction` on a `null` body throws, and the `catch` (also reached by a
fetch rejection or a JSON-parse rejection) stores
`{ error: "Something went wrong!" }`.  `setLoading(false)` runs after the
`try`/`catch` in every branch. -/
def jsResolve (_s : JsState) (o : Outcome) : JsState :=
  match o with
  | .netFail _ => { result := some (.errObj "Something went wrong!"), loading := false }
  | .badJson _ _ _ => { result := some (.errObj "Something went wrong!"), loading := false }
  | .okBody _ _ data =>
      match data with
      | .null => { result := some (.errObj "Something went wrong!"), loading := false }
      | _ => { result := some (.pred (data.get "prediction")), loading := false }

/-- One event step of `App.js`.  `handleSubmit` sets `loading`, clears
`result`, and always dispatches exactly one request — it performs no
emptiness or whitespace validation of its own (the `required` attribute
on the input element only stops the browser from submitting a strictly
empty field). -/
def jsStep (sys : JsSys) : Event → JsSys
  | .submit input =>
      { ui := { result := none, loading := true },
        requests := sys.requests ++ [jsRequest input] }
  | .resolve _ o => { sys with ui := jsResolve sys.ui o }

/-- Run `App.js` from a system state over a list of events. -/
def jsRun (sys : JsSys) (events : List Event) : JsSys :=
  events.foldl jsStep sys

/-- The verdict `App.js` renders: the result block is shown only when
`result` is truthy, and then displays `"⚠️ Phishing Website!"` iff
`result === "phishing"` and `"✅ Legitimate Website"` otherwise.
`some b` means a verdict is displayed with `isPhishing = b`; `none` means
no verdict is shown.  `App.js` renders no confidence and no reason tags. -/
def jsRenderedVerdict : Option JsResult → Option Bool
  | none => none
  | some r => if jsTruthy r then some (jsIsPhishing r) else none

/-! ## Claims -/

/-- C1: for every successful 2xx JSON response payload of Shape A
(`label` is the number `0` or `1` and `score` a number), the payload is
stored as the result, the displayed verdict is phishing exactly when
`label === 1`, the displayed confidence is the number `score` (never the
non-numeric placeholder), and the displayed reason tags are exactly
`payload.reasons` when that field is a non-empty array and the empty
sequence otherwise. -/
theorem c1_shapeA_rendering (fs : List (String × Json)) (l q : ℚ)
    (hlab : (Json.obj fs).get "label" = some (Json.num l))
    (hl : l = 0 ∨ l = 1)
    (hsc : (Json.obj fs).get "score" = some (Json.num q))
    (s : JsxState) (status : Nat) (text : String)
    (hst : statusOk status = true) :
    (jsxResolve s (.okBody status text (Json.obj fs))).result = some (Json.obj fs) ∧
    jsxRenderedVerdict (some (Json.obj fs)) = some (l == 1) ∧
    jsxScoreDisplayed (Json.obj fs) = some q ∧
    (∀ xs, (Json.obj fs).get "reasons" = some (Json.arr xs) → xs ≠ [] →
      jsxReasonsDisplayed (Json.obj fs) = xs) ∧
    ((∀ xs, (Json.obj fs).get "reasons" = some (Json.arr xs) → xs = []) →
      jsxReasonsDisplayed (Json.obj fs) = []) := by
  refine ⟨by simp [jsxResolve, hst], ?_, ?_, ?_, ?_⟩
  · simp [jsxRenderedVerdict, jsonTruthy, isLabelOne, hlab]
  · simp [jsxScoreDisplayed, hsc]
  · intro xs hxs hne
    simp [jsxReasonsDisplayed, hxs, List.length_pos.mpr hne]
  · intro h
    unfold jsxReasonsDisplayed
    cases hr : (Json.obj fs).get "reasons" with
    | none => rfl
    | some v =>
      cases v
      case arr xs => simp [h xs hr]
      all_goals rfl

/-- Witness for C1 at the payload
`{ label: 1, score: 0.93, reasons: ["ip-literal-host"] }` on a
`200 OK` response. -/
theorem c1_shapeA_rendering_witness :
    jsxRenderedVerdict (some (Json.obj [("label", Json.num 1),
      ("score", Json.num (93/100)),
      ("reasons", Json.arr [Json.str "ip-literal-host"])])) = some true ∧
    jsxScoreDisplayed (Json.obj [("label", Json.num 1),
      ("score", Json.num (93/100)),
      ("reasons", Json.arr [Json.str "ip-literal-host"])]) = some (93/100) ∧
    jsxReasonsDisplayed (Json.obj [("label", Json.num 1),
      ("score", Json.num (93/100)),
      ("reasons", Json.arr [Json.str "ip-literal-host"])])
      = [Json.str "ip-literal-host"] := by
  have h := c1_shapeA_rendering
    [("label", Json.num 1), ("score", Json.num (93/100)),
     ("reasons", Json.arr [Json.str "ip-literal-host"])]
    1 (93/100) rfl (Or.inr rfl) rfl jsxInit 200 "" rfl
  exact ⟨by simpa using h.2.1, h.2.2.1,
    h.2.2.2.1 [Json.str "ip-literal-host"] rfl (by simp)⟩

/-- C2 counterexample: the payload `{ prediction: "" }` has a string
`prediction` field, yet `App.js` displays no verdict at all — the empty
string is falsy, so the result block is not rendered — contradicting the
claim that a verdict with `isPhishing = false` is displayed for every
string prediction. -/
theorem c2_counterexample :
    ((Json.obj [("prediction", Json.str "")]).get "prediction"
      = some (Json.str "")) ∧
    (jsResolve jsInit (.okBody 200 ""
      (Json.obj [("prediction", Json.str "")]))).result
      = some (.pred (some (Json.str ""))) ∧
    jsRenderedVerdict (some (JsResult.pred (some (Json.str "")))) = none ∧
    jsRenderedVerdict (some (JsResult.pred (some (Json.str "")))) ≠ some false := by
  refine ⟨rfl, rfl, rfl, by simp [jsRenderedVerdict, jsTruthy, jsonTruthy]⟩

/-- C2 (amended): for every successful JSON response payload whose
`prediction` field is a NON-EMPTY string, the displayed verdict has
`isPhishing` true exactly when `prediction === "phishing"` and false for
any other non-empty string, with no confidence and no reason tags
rendered; when the prediction is the empty string, no verdict is
displayed at all. -/
theorem c2_prediction_rendering (fs : List (String × Json)) (p : String)
    (hp : (Json.obj fs).get "prediction" = some (Json.str p)) (hs : p ≠ "")
    (s : JsState) (status : Nat) (text : String) :
    (jsResolve s (.okBody status text (Json.obj fs))).result
      = some (.pred (some (Json.str p))) ∧
    jsRenderedVerdict (some (JsResult.pred (some (Json.str p))))
      = some (p == "phishing") := by
  refine ⟨by simp [jsResolve, hp], ?_⟩
  simp [jsRenderedVerdict, jsTruthy, jsonTruthy, jsIsPhishing, hs]

/-- Witness for the amended C2 at the payload `{ prediction: "legit" }`:
the displayed verdict is the legitimate one. -/
theorem c2_prediction_rendering_witness :
    (jsResolve jsInit (.okBody 200 ""
      (Json.obj [("prediction", Json.str "legit")]))).result
      = some (.pred (some (Json.str "legit"))) ∧
    jsRenderedVerdict (some (JsResult.pred (some (Json.str "legit"))))
      = some false := by
  have h := c2_prediction_rendering [("prediction", Json.str "legit")]
    "legit" rfl (by simp) jsInit 200 ""
  exact ⟨h.1, by simpa using h.2⟩

/-- C3 counterexample: in `App.js`, submitting
`"  http://evil.example/login  "` dispatches a POST whose body carries
the raw, untrimmed string — the dispatched body differs from
`{"url": "http://evil.example/login"}`, contradicting the claim that the
body always holds the trimmed input. -/
theorem c3_counterexample :
    (jsStep ⟨jsInit, []⟩ (.submit "  http://evil.example/login  ")).requests
      = [⟨"POST", "http://127.0.0.1:5000/predict_url", "application/json",
          Json.obj [("url", Json.str "  http://evil.example/login  ")]⟩] ∧
    jsTrim "  http://evil.example/login  " = "http://evil.example/login" ∧
    "  http://evil.example/login  " ≠ "http://evil.example/login" := by
  refine ⟨rfl, by decide, by decide⟩

/-- C3 (amended): every submission that dispatches at all dispatches
exactly one POST to `/predict_url` with content type `application/json`;
in `App.jsx` the body is `{"url": t}` with `t` the trimmed input, while
in `App.js` the body is `{"url": input}` with the input untrimmed. -/
theorem c3_single_post (sysx : JsxSys) (sysj : JsSys) (input : String)
    (h : jsTrim input ≠ "") :
    (jsxStep sysx (.submit input)).requests
      = sysx.requests ++ [⟨"POST", "http://127.0.0.1:5000/predict_url",
          "application/json", Json.obj [("url", Json.str (jsTrim input))]⟩] ∧
    (jsStep sysj (.submit input)).requests
      = sysj.requests ++ [⟨"POST", "http://127.0.0.1:5000/predict_url",
          "application/json", Json.obj [("url", Json.str input)]⟩] := by
  constructor
  · simp [jsxStep, jsxRequest, h]
  · simp [jsStep, jsRequest]

/-- Witness for the amended C3 at the input
`"  http://evil.example/login  "`. -/
theorem c3_single_post_witness :
    (jsxStep ⟨jsxInit, []⟩ (.submit "  http://evil.example/login  ")).requests
      = [⟨"POST", "http://127.0.0.1:5000/predict_url", "application/json",
          Json.obj [("url", Json.str "http://evil.example/login")]⟩] := by
  have h := c3_single_post ⟨jsxInit, []⟩ ⟨jsInit, []⟩
    "  http://evil.example/login  " (by decide)
  simpa using h.1

/-- C4 counterexample: `App.js` performs no `response.ok` check — a
`500` response whose JSON body is `{ "prediction": "phishing" }` is
interpreted like a success, and the final state displays a phishing
verdict instead of ending in a server-error state. -/
theorem c4_counterexample :
    statusOk 500 = false ∧
    (jsRun ⟨jsInit, []⟩ [.submit "http://a.example",
      .resolve 0 (.okBody 500 "oops"
        (Json.obj [("prediction", Json.str "phishing")]))]).ui.result
      = some (.pred (some (Json.str "phishing"))) ∧
    jsRenderedVerdict (jsRun ⟨jsInit, []⟩ [.submit "http://a.example",
      .resolve 0 (.okBody 500 "oops"
        (Json.obj [("prediction", Json.str "phishing")]))]).ui.result
      = some true := by
  refine ⟨by decide, rfl, rfl⟩

/-- C4 (amended): in `App.jsx`, every transport response with a non-2xx
status ends the submission in the server-error state — `error` captures
`"Server error: "` followed by the response body text, or the status code
when the body is empty — and never in a resolved state with a verdict
(`result` stays cleared); this holds whether or not the error body parses
as JSON.  `App.js` has no status check and can resolve a verdict from a
non-2xx JSON body. -/
theorem c4_server_error (sys : JsxSys) (input : String)
    (h : jsTrim input ≠ "") (i status : Nat) (text parseMsg : String)
    (data : Json) (hst : statusOk status = false) :
    ((jsxRun sys [.submit input,
        .resolve i (.okBody status text data)]).ui.error
      = some ("Server error: " ++ (if text = "" then toString status else text)) ∧
     (jsxRun sys [.submit input,
        .resolve i (.okBody status text data)]).ui.result = none) ∧
    ((jsxRun sys [.submit input,
        .resolve i (.badJson status text parseMsg)]).ui.error
      = some ("Server error: " ++ (if text = "" then toString status else text)) ∧
     (jsxRun sys [.submit input,
        .resolve i (.badJson status text parseMsg)]).ui.result = none) := by
  refine ⟨⟨?_, ?_⟩, ⟨?_, ?_⟩⟩ <;>
    simp [jsxRun, jsxStep, jsxResolve, h, hst]

/-- Witness for the amended C4: a `404` response with body `"not found"`
after submitting `"http://a.example"`. -/
theorem c4_server_error_witness :
    (jsxRun ⟨jsxInit, []⟩ [.submit "http://a.example",
      .resolve 0 (.okBody 404 "not found" Json.null)]).ui.error
      = some "Server error: not found" ∧
    (jsxRun ⟨jsxInit, []⟩ [.submit "http://a.example",
      .resolve 0 (.okBody 404 "not found" Json.null)]).ui.result = none := by
  have h := c4_server_error ⟨jsxInit, []⟩ "http://a.example" (by decide)
    0 404 "not found" "" Json.null (by decide)
  exact ⟨by simpa using h.1.1, h.1.2⟩

/-- C5 counterexample: in each frontend, two submissions with the
first's `200` result arriving after the second's.  In `App.jsx` the
final visible result is the FIRST submission's payload `{ label: 1 }`,
rendered as a phishing verdict, although the second submission's payload
`{ label: 0 }` would render as safe; in `App.js` the final result is
likewise the first submission's `{ prediction: "phishing" }`, rendered
as phishing, although the second's `{ prediction: "legit" }` would
render as legitimate.  A stale in-flight result does overwrite the
visible state in both files, contradicting last-submission-wins. -/
theorem c5_counterexample :
    ((jsxRun ⟨jsxInit, []⟩
      [.submit "http://first.example", .submit "http://second.example",
       .resolve 1 (.okBody 200 "" (Json.obj [("label", Json.num 0)])),
       .resolve 0 (.okBody 200 "" (Json.obj [("label", Json.num 1)]))]).ui.result
      = some (Json.obj [("label", Json.num 1)]) ∧
     jsxRenderedVerdict (jsxRun ⟨jsxInit, []⟩
      [.submit "http://first.example", .submit "http://second.example",
       .resolve 1 (.okBody 200 "" (Json.obj [("label", Json.num 0)])),
       .resolve 0 (.okBody 200 "" (Json.obj [("label", Json.num 1)]))]).ui.result
      = some true ∧
     jsxRenderedVerdict (some (Json.obj [("label", Json.num 0)]))
      = some false) ∧
    ((jsRun ⟨jsInit, []⟩
      [.submit "http://first.example", .submit "http://second.example",
       .resolve 1 (.okBody 200 "" (Json.obj [("prediction", Json.str "legit")])),
       .resolve 0 (.okBody 200 "" (Json.obj [("prediction", Json.str "phishing")]))]).ui.result
      = some (.pred (some (Json.str "phishing"))) ∧
     jsRenderedVerdict (jsRun ⟨jsInit, []⟩
      [.submit "http://first.example", .submit "http://second.example",
       .resolve 1 (.okBody 200 "" (Json.obj [("prediction", Json.str "legit")])),
       .resolve 0 (.okBody 200 "" (Json.obj [("prediction", Json.str "phishing")]))]).ui.result
      = some true ∧
     jsRenderedVerdict (some (JsResult.pred (some (Json.str "legit"))))
      = some false) := by
  refine ⟨⟨rfl, rfl, rfl⟩, ⟨rfl, rfl, rfl⟩⟩

/-- C5 (amended): in both frontends the last resolution to run wins, not
the last submission: with two overlapping submissions whose 2xx results
resolve out of order (the first submission's result arriving last), the
visible final result is the first (stale) submission's payload — in
`App.jsx` the stale payload itself, in `App.js` the stale payload's
`prediction` — since neither source has a staleness guard, so a stale
in-flight result does overwrite the visible state. -/
theorem c5_last_resolution_wins (u1 u2 : String)
    (h1 : jsTrim u1 ≠ "") (h2 : jsTrim u2 ≠ "") (d1 d2 : Json) (i j : Nat)
    (p1 p2 : String) :
    (jsxRun ⟨jsxInit, []⟩
      [.submit u1, .submit u2,
       .resolve j (.okBody 200 "" d2),
       .resolve i (.okBody 200 "" d1)]).ui.result = some d1 ∧
    (jsRun ⟨jsInit, []⟩
      [.submit u1, .submit u2,
       .resolve j (.okBody 200 "" (Json.obj [("prediction", Json.str p2)])),
       .resolve i (.okBody 200 "" (Json.obj [("prediction", Json.str p1)]))]).ui.result
      = some (.pred (some (Json.str p1))) := by
  constructor
  · simp [jsxRun, jsxStep, jsxResolve, h1, h2, statusOk]
  · simp [jsRun, jsStep, jsResolve, Json.get, lookupField]

/-- Witness for the amended C5 at two concrete URLs and payloads, in
both frontends. -/
theorem c5_last_resolution_wins_witness :
    (jsxRun ⟨jsxInit, []⟩
      [.submit "http://first.example", .submit "http://second.example",
       .resolve 1 (.okBody 200 "" (Json.obj [("label", Json.num 0)])),
       .resolve 0 (.okBody 200 "" (Json.obj [("label", Json.num 1)]))]).ui.result
      = some (Json.obj [("label", Json.num 1)]) ∧
    (jsRun ⟨jsInit, []⟩
      [.submit "http://first.example", .submit "http://second.example",
       .resolve 1 (.okBody 200 "" (Json.obj [("prediction", Json.str "legit")])),
       .resolve 0 (.okBody 200 "" (Json.obj [("prediction", Json.str "phishing")]))]).ui.result
      = some (.pred (some (Json.str "phishing"))) :=
  c5_last_resolution_wins "http://first.example" "http://second.example"
    (by decide) (by decide) (Json.obj [("label", Json.num 1)])
    (Json.obj [("label", Json.num 0)]) 0 1 "phishing" "legit"

/-- C6: in `App.jsx`, for every submission whose transport call rejects
(no response received), the final state carries the network-error
message (`err.message`, or the fallback `"Network error"` when the
rejection carries no message) and a cleared `result`: any verdict from a
prior successful submission is gone and no verdict is rendered. -/
theorem c6_network_failure (sys : JsxSys) (input : String)
    (h : jsTrim input ≠ "") (i : Nat) (msg : String) :
    (jsxRun sys [.submit input, .resolve i (.netFail msg)]).ui.result = none ∧
    (jsxRun sys [.submit input, .resolve i (.netFail msg)]).ui.error
      = some (if msg = "" then "Network error" else msg) ∧
    jsxRenderedVerdict
      (jsxRun sys [.submit input, .resolve i (.netFail msg)]).ui.result
      = none := by
  refine ⟨?_, ?_, ?_⟩ <;>
    simp [jsxRun, jsxStep, jsxResolve, jsxRenderedVerdict, h]

/-- Witness for C6: starting from a state holding a prior safe verdict,
submitting `"http://a.example"` and suffering a connection failure ends
with the network-error message and no verdict. -/
theorem c6_network_failure_witness :
    (jsxRun ⟨⟨none, some (Json.obj [("label", Json.num 0)]), false⟩, []⟩
      [.submit "http://a.example",
       .resolve 0 (.netFail "Failed to fetch")]).ui.result = none ∧
    (jsxRun ⟨⟨none, some (Json.obj [("label", Json.num 0)]), false⟩, []⟩
      [.submit "http://a.example",
       .resolve 0 (.netFail "Failed to fetch")]).ui.error
      = some "Failed to fetch" := by
  have h := c6_network_failure
    ⟨⟨none, some (Json.obj [("label", Json.num 0)]), false⟩, []⟩
    "http://a.example" (by decide) 0 "Failed to fetch"
  exact ⟨h.1, by simpa using h.2.1⟩

/-- C7 counterexample: the 2xx payload `{ "foo": 1 }` has neither a
`label` nor a `prediction` field, yet `App.jsx` resolves it and renders
a safe verdict (`isPhishing = false`) — there is no `UnrecognizedShape`
failure anywhere in the code. -/
theorem c7_counterexample :
    ((Json.obj [("foo", Json.num 1)]).get "label" = none) ∧
    ((Json.obj [("foo", Json.num 1)]).get "prediction" = none) ∧
    (jsxResolve { jsxInit with loading := true }
      (.okBody 200 "" (Json.obj [("foo", Json.num 1)]))).result
      = some (Json.obj [("foo", Json.num 1)]) ∧
    jsxRenderedVerdict (some (Json.obj [("foo", Json.num 1)]))
      = some false := by
  refine ⟨rfl, rfl, rfl, rfl⟩

/-- C7 (amended): no unrecognized-shape handling exists.  `App.jsx`
renders a safe verdict (`isPhishing = false`) for every 2xx JSON object
payload whose `label` is not the number `1`, shapeless payloads
included; `App.js` renders no verdict at all when the payload lacks a
`prediction` field. -/
theorem c7_no_unrecognized_shape (fs : List (String × Json))
    (hl : (Json.obj fs).get "label" ≠ some (Json.num 1)) :
    jsxRenderedVerdict (some (Json.obj fs)) = some false ∧
    ((Json.obj fs).get "prediction" = none →
      jsRenderedVerdict (some (JsResult.pred ((Json.obj fs).get "prediction")))
        = none) := by
  constructor
  · have hlab : isLabelOne (Json.obj fs) = false := by
      unfold isLabelOne
      cases hr : (Json.obj fs).get "label" with
      | none => rfl
      | some v =>
        cases v
        case num q =>
          by_cases hq : q = 1
          · exact absurd (hr.trans (by rw [hq])) hl
          · simp [hq]
        all_goals rfl
    simp [jsxRenderedVerdict, jsonTruthy, hlab]
  · intro hp
    rw [hp]
    rfl

/-- Witness for the amended C7 at the payload `{ "foo": 1 }`. -/
theorem c7_no_unrecognized_shape_witness :
    jsxRenderedVerdict (some (Json.obj [("foo", Json.num 1)])) = some false ∧
    jsRenderedVerdict (some (JsResult.pred
      ((Json.obj [("foo", Json.num 1)]).get "prediction"))) = none := by
  have h := c7_no_unrecognized_shape [("foo", Json.num 1)] (by simp [Json.get, lookupField])
  exact ⟨h.1, h.2 rfl⟩

/-- C8 counterexample: `App.js`'s `handleSubmit` performs no emptiness
check — the whitespace-only input `"   "` (which passes the HTML
`required` attribute) dispatches a POST whose body carries the
whitespace string, contradicting the claim that no request is issued for
whitespace-only input. -/
theorem c8_counterexample :
    jsTrim "   " = "" ∧
    (jsStep ⟨jsInit, []⟩ (.submit "   ")).requests
      = [⟨"POST", "http://127.0.0.1:5000/predict_url", "application/json",
          Json.obj [("url", Json.str "   ")]⟩] := by
  refine ⟨by decide, rfl⟩

/-- C8 (amended): in `App.jsx`, every empty or whitespace-only input
fails synchronously with the validation message
`"Please enter a URL to scan."` and dispatches nothing; `App.js` has no
such check and dispatches a POST carrying the raw input (its HTML
`required` attribute only stops the browser from submitting a strictly
empty field). -/
theorem c8_empty_input (sysx : JsxSys) (sysj : JsSys) (input : String)
    (h : jsTrim input = "") :
    (jsxStep sysx (.submit input)).requests = sysx.requests ∧
    (jsxStep sysx (.submit input)).ui.error
      = some "Please enter a URL to scan." ∧
    (jsxStep sysx (.submit input)).ui.result = none ∧
    (jsStep sysj (.submit input)).requests
      = sysj.requests ++ [jsRequest input] := by
  refine ⟨?_, ?_, ?_, ?_⟩ <;> simp [jsxStep, jsStep, h]

/-- Witness for the amended C8 at the whitespace-only input `"   "`. -/
theorem c8_empty_input_witness :
    (jsxStep ⟨jsxInit, []⟩ (.submit "   ")).requests = [] ∧
    (jsxStep ⟨jsxInit, []⟩ (.submit "   ")).ui.error
      = some "Please enter a URL to scan." := by
  have h := c8_empty_input ⟨jsxInit, []⟩ ⟨jsInit, []⟩ "   " (by decide)
  exact ⟨h.1, h.2.1⟩

/-- C9 counterexample: the 2xx Shape A payload
`{ label: 1, score: 7.5 }` yields a displayed verdict whose confidence
is present and equal to `7.5`, outside `[0,1]` — the code passes the raw
score through with no range check, so the claimed `ScanVerdict`
invariant fails. -/
theorem c9_counterexample :
    jsxRenderedVerdict (some (Json.obj
      [("label", Json.num 1), ("score", Json.num (15/2))])) = some true ∧
    jsxScoreDisplayed (Json.obj
      [("label", Json.num 1), ("score", Json.num (15/2))]) = some (15/2) ∧
    ¬ ((15/2 : ℚ) ≤ 1) := by
  refine ⟨rfl, rfl, by norm_num⟩

/-- C9 (amended): the displayed confidence, when present, is the raw
`score` passed through unchanged, with no guarantee that it lies in
`[0,1]`; the reasons half of the invariant holds — the rendered reason
tags are always a sequence, never null, and are empty whenever the
payload carries no non-empty reasons array. -/
theorem c9_verdict_invariant (fs : List (String × Json)) (q : ℚ)
    (hsc : (Json.obj fs).get "score" = some (Json.num q))
    (hr : ∀ xs, (Json.obj fs).get "reasons" = some (Json.arr xs) → xs = []) :
    jsxScoreDisplayed (Json.obj fs) = some q ∧
    jsxReasonsDisplayed (Json.obj fs) = [] := by
  constructor
  · simp [jsxScoreDisplayed, hsc]
  · unfold jsxReasonsDisplayed
    cases hrr : (Json.obj fs).get "reasons" with
    | none => rfl
    | some v =>
      cases v
      case arr xs => simp [hr xs hrr]
      all_goals rfl

/-- Witness for the amended C9 at the payload `{ label: 1, score: 7.5 }`
(no reasons array). -/
theorem c9_verdict_invariant_witness :
    jsxScoreDisplayed (Json.obj
      [("label", Json.num 1), ("score", Json.num (15/2))]) = some (15/2) ∧
    jsxReasonsDisplayed (Json.obj
      [("label", Json.num 1), ("score", Json.num (15/2))]) = [] := by
  have h := c9_verdict_invariant
    [("label", Json.num 1), ("score", Json.num (15/2))] (15/2) rfl
    (fun xs hxs => by simp [Json.get, lookupField] at hxs)
  exact ⟨h.1, h.2⟩

/-- C10: in `App.js`, every submission whose fetch rejects or whose
body fails to parse as JSON ends with `result` set to the non-null
object `{ error: "Something went wrong!" }`, which is truthy and not
strictly equal to the string `"phishing"`, so the UI renders the
legitimate-website verdict (`isPhishing = false`) instead of an error
indication. -/
theorem c10_catch_renders_legit (sys : JsSys) (i : Nat) (msg : String)
    (status : Nat) (text parseMsg : String) :
    ((jsStep sys (.resolve i (.netFail msg))).ui.result
        = some (.errObj "Something went wrong!") ∧
      jsRenderedVerdict
        (jsStep sys (.resolve i (.netFail msg))).ui.result = some false) ∧
    ((jsStep sys (.resolve i (.badJson status text parseMsg))).ui.result
        = some (.errObj "Something went wrong!") ∧
      jsRenderedVerdict
        (jsStep sys (.resolve i (.badJson status text parseMsg))).ui.result
        = some false) ∧
    jsIsPhishing (.errObj "Something went wrong!") = false := by
  refine ⟨⟨rfl, rfl⟩, ⟨rfl, rfl⟩, rfl⟩

end PhishGuard
